import Mathlib

/-!
Verification of the payments-assistant command pipeline (`main.py`).

Instants are modelled as wall-clock microseconds in the single fixed
civil timezone (America/Bogota, UTC-5, no DST), counted from the civil
epoch 1970-01-01 00:00:00.  Since every `datetime` produced by the
program lives in this one fixed zone, a `datetime` value is embedded as
an `Int` of microseconds and `timedelta(days = n)` as `n * usPerDay`.
The per-user Firestore partition is embedded as a list of records; the
store contract returns query matches ordered descending by `timestamp`,
so the partition list is taken in that order (a `SortedDescTs`
hypothesis where a theorem needs it) and a native query is a `filter`
over it.
-/

namespace PaymentsBot

/-- Microseconds in one civil day. -/
def usPerDay : Int := 86400000000

/-- Civil day number of an instant (`datetime.date()`): floor of division
by `usPerDay`; `Int` division is Euclidean, which is floor division for a
positive divisor. -/
def dateOf (t : Int) : Int := t / usPerDay

/-- First microsecond of civil day `d`
(`datetime.combine(d, datetime.min.time())`). -/
def startOfDay (d : Int) : Int := d * usPerDay

/-- Last microsecond, 23:59:59.999999, of civil day `d`
(`datetime.combine(d, datetime.max.time())`). -/
def endOfDay (d : Int) : Int := d * usPerDay + (usPerDay - 1)

/-- Python `str.lower` restricted to the alphabet the date tokens use:
ASCII letters and `Ñ`. -/
def pyLowerChar (c : Char) : Char :=
  if 'A' ≤ c ∧ c ≤ 'Z' then Char.ofNat (c.toNat + 32)
  else if c = 'Ñ' then 'ñ' else c

/-- Python `str.lower` on a whole string. -/
def pyLower (s : String) : String := String.mk (s.data.map pyLowerChar)

/-- Python `str.strip()`: drop leading and trailing whitespace. -/
def pyStrip (s : String) : String :=
  String.mk (((s.data.dropWhile Char.isWhitespace).reverse.dropWhile
    Char.isWhitespace).reverse)

/-- `DateHandler.parse_relative_date` (main.py lines 29-41): lower-case and
strip the token, then look it up in the relative-date mapping; `none` models
the `dict.get` miss. `now` is the instant `get_current_date` returned. -/
def parse_relative_date (now : Int) (date_str : String) : Option Int :=
  let d := pyStrip (pyLower date_str)
  if d = "hoy" then some now
  else if d = "ayer" then some (now - usPerDay)
  else if d = "anteayer" then some (now - 2 * usPerDay)
  else if d = "mañana" then some (now + usPerDay)
  else none

/-- `DateHandler.get_date_range` (main.py lines 43-70): start and end of the
range for a time frame; the final branch is the `ranges.get` default. -/
def get_date_range (now : Int) (time_frame : String) : Int × Int :=
  if time_frame = "today" then
    (startOfDay (dateOf now), endOfDay (dateOf now))
  else if time_frame = "yesterday" then
    (startOfDay (dateOf (now - usPerDay)), endOfDay (dateOf (now - usPerDay)))
  else if time_frame = "week" then (now - 7 * usPerDay, now)
  else if time_frame = "month" then (now - 30 * usPerDay, now)
  else if time_frame = "year" then (now - 365 * usPerDay, now)
  else (now - 30 * usPerDay, now)

/-- Civil calendar date `(year, month, day)` of a day number counted from
1970-01-01, by the standard era decomposition of the proleptic Gregorian
calendar; used to embed `strftime` below. -/
def civilFromDays (z : Int) : Int × Nat × Nat :=
  let zsh : Int := z + 719468
  let era : Int := zsh / 146097
  let doe : Nat := (zsh % 146097).toNat
  let yoe : Nat := (doe - doe / 1460 + doe / 36524 - doe / 146096) / 365
  let doy : Nat := doe - (365 * yoe + yoe / 4 - yoe / 100)
  let mp : Nat := (5 * doy + 2) / 153
  let d : Nat := doy - (153 * mp + 2) / 5 + 1
  let m : Nat := if mp < 10 then mp + 3 else mp - 9
  ((yoe : Int) + era * 400 + (if m ≤ 2 then 1 else 0), m, d)

/-- Left-pad a string with zeros up to width `w`. -/
def padZeros (w : Nat) (s : String) : String :=
  String.mk (List.replicate (w - s.length) '0') ++ s

/-- Year component of `%Y`. -/
def showYearNum (y : Int) : String :=
  if y < 0 then "-" ++ padZeros 4 (toString (-y).toNat)
  else padZeros 4 (toString y.toNat)

/-- `current_date.strftime(\x7b'%Y-%m-%d'\x7d)` as a function of the civil
day number of `current_date`. -/
def formatCivilDate (day : Int) : String :=
  let ymd := civilFromDays day
  showYearNum ymd.1 ++ "-" ++ padZeros 2 (toString ymd.2.1) ++ "-" ++
    padZeros 2 (toString ymd.2.2)

/-- Digits of a reversed decimal string in groups of three (the grouping
step of Python `format(n, ",")`). -/
def chunk3 : List Char → List (List Char)
  | [] => []
  | [a] => [[a]]
  | [a, b] => [[a, b]]
  | a :: b :: c :: rest => [a, b, c] :: chunk3 rest

/-- Python `f"\x7bn:,\x7d"` on a natural number: decimal digits with a comma
every three digits from the right. -/
def commafyNat (n : Nat) : String :=
  String.mk ((((chunk3 (toString n).data.reverse).intersperse [',']).flatten).reverse)

/-- Python `f"\x7bn:,\x7d"` on an integer. -/
def commafyInt (i : Int) : String :=
  if i < 0 then "-" ++ commafyNat (-i).toNat else commafyNat i.toNat

example : commafyInt 50000 = "50,000" := by decide

example : formatCivilDate 0 = "1970-01-01" := by decide

example : formatCivilDate (-1) = "1969-12-31" := by decide

/-- The `params` dict of a structured command.  Each field is `none` when
the key is absent from the dict. -/
structure Params where
  recipient : Option String
  amount : Option Int
  metadata : Option String
  date : Option String
  time_frame : Option String
deriving DecidableEq

/-- A structured command as produced by the translator boundary:
`\x7b"command": ..., "params": ...\x7d`. -/
structure StructuredCommand where
  command : String
  params : Params
deriving DecidableEq

/-- A payment document as written by `prepare_payment_data`: the five
fields set at main.py lines 119-125.  `timestamp` is the `datetime`
stored for querying, `date` the `%Y-%m-%d` string. -/
structure PaymentData where
  recipient : String
  amount : Int
  metadata : String
  date : String
  timestamp : Int
deriving DecidableEq

/-- The date-resolution prefix of `prepare_payment_data` (main.py lines
109-116): start from `now`, and when `params.get('date')` is truthy (a
present, non-empty string) and `parse_relative_date` recognizes it,
replace `now` by the parsed instant. -/
def resolvedDate (now : Int) (params : Params) : Int :=
  match params.date with
  | none => now
  | some s =>
    if s ≠ "" then
      match parse_relative_date now s with
      | some d => d
      | none => now
    else now

/-- `PaymentHandler.prepare_payment_data` (main.py lines 106-128).
`none` models the `KeyError` raised by `params['recipient']` or
`params['amount']` when the key is absent; otherwise the returned
document carries the five fields of the Python dict. -/
def prepare_payment_data (now : Int) (params : Params) : Option PaymentData :=
  match params.recipient, params.amount with
  | some r, some a =>
    let current := resolvedDate now params
    some ⟨r, a, params.metadata.getD "", formatCivilDate (dateOf current), current⟩
  | _, _ => none

/-- main.py line 151: message returned when `add_payment` catches any
exception. -/
def addErrorMsg : String := "❌ Error al registrar el pago. Por favor intenta de nuevo."

/-- main.py line 347: message shown when the translator returned `None`
(`handle_message`: "could not understand"). -/
def couldNotUnderstandMsg : String := "❌ No pude entender el comando. Por favor intenta de nuevo."

/-- main.py line 340: `handle_command`'s unsupported-kind message. -/
def notSupportedMsg : String := "❌ Comando no soportado"

/-- main.py lines 197-198: missing-index message directing the user to the
administrator (the two adjacent Python string literals concatenated). -/
def adminIndexMsg : String :=
  "❌ Se requiere crear un índice en Firebase para esta consulta. Por favor, contacta al administrador del sistema."

/-- main.py line 199: generic query-failure message. -/
def queryErrorMsg : String := "❌ Error al consultar los pagos. Por favor intenta de nuevo."

/-- `PaymentHandler.add_payment` (main.py lines 130-151) acting on the
user's partition `store`.  `insertOk` is whether the Firestore
`payment_ref.set` succeeds; any exception — the `KeyError` from
`prepare_payment_data` or a storage fault — lands in the `except` branch,
which returns `addErrorMsg` and leaves the partition unchanged. -/
def add_payment (now : Int) (store : List PaymentData) (insertOk : Bool)
    (cmd : StructuredCommand) : List PaymentData × String :=
  match prepare_payment_data now cmd.params with
  | none => (store, addErrorMsg)
  | some pd =>
    if insertOk then
      let r0 := "✅ Pago registrado:\n💰 " ++ commafyInt pd.amount ++ " COP a " ++ pd.recipient
      let r1 := if pd.metadata ≠ "" then r0 ++ "\n📝 Concepto: " ++ pd.metadata else r0
      let r2 := if pd.date ≠ "" then r1 ++ "\n📅 Fecha: " ++ pd.date else r1
      (store ++ [pd], r2)
    else (store, addErrorMsg)

/-- One line of the query-result listing (loop body of
`format_payment_response`, main.py lines 209-221), `"\n"` included. -/
def paymentLine (p : PaymentData) : String :=
  let l0 := "💰 " ++ commafyInt p.amount ++ " COP a " ++ p.recipient
  let l1 := if p.metadata ≠ "" then l0 ++ " (" ++ p.metadata ++ ")" else l0
  let l2 := if p.date ≠ "" then l1 ++ " 📅 " ++ p.date else l1
  l2 ++ "\n"

/-- `PaymentHandler.format_payment_response` (main.py lines 201-225):
fixed message on an empty result, otherwise a header, a line per record
accumulated in order, and a trailing total. -/
def format_payment_response (payments : List PaymentData) : String :=
  if payments = [] then "No se encontraron pagos para los criterios especificados."
  else
    let acc := payments.foldl (fun st p => (st.1 ++ paymentLine p, st.2 + p.amount))
      ("📊 Historial de pagos:\n\n", (0 : Int))
    acc.1 ++ "\n💰 Total: " ++ commafyInt acc.2 ++ " COP"

/-- The shape of a native Firestore query `query_payments` can issue:
equality on `recipient`, inclusive range on `timestamp`, or the
unfiltered 50-record limit; all ordered descending by `timestamp`. -/
inductive QueryShape where
  | eqRecipient (r : String)
  | tsRange (s e : Int)
  | recentLimit (n : Nat)
deriving DecidableEq

/-- The range predicate `timestamp >= s` and `timestamp <= e`. -/
def inRange (s e : Int) (p : PaymentData) : Bool :=
  decide (s ≤ p.timestamp) && decide (p.timestamp ≤ e)

/-- The native queries `PaymentHandler.query_payments` (main.py lines
153-190) issues against the store for a given filter set, branch by
branch. -/
def query_payments_plan (now : Int) (params : Params) : List QueryShape :=
  match params.recipient, params.time_frame with
  | some r, none => [.eqRecipient r]
  | none, some tf => [.tsRange (get_date_range now tf).1 (get_date_range now tf).2]
  | some _, some tf => [.tsRange (get_date_range now tf).1 (get_date_range now tf).2]
  | none, none => [.recentLimit 50]

/-- The record sequence `PaymentHandler.query_payments` passes to
`format_payment_response`, for a partition `store` listed in the store's
descending-`timestamp` order: each native query is a filter (or a
50-record `take`) over the ordered partition, and the combined-filter
branch additionally filters the range result in memory by recipient
equality (main.py lines 179-180). -/
def query_payments_records (now : Int) (store : List PaymentData) (params : Params) :
    List PaymentData :=
  match params.recipient, params.time_frame with
  | some r, none => store.filter (fun p => p.recipient == r)
  | none, some tf =>
    store.filter (inRange (get_date_range now tf).1 (get_date_range now tf).2)
  | some r, some tf =>
    (store.filter (inRange (get_date_range now tf).1 (get_date_range now tf).2)).filter
      (fun p => p.recipient == r)
  | none, none => store.take 50

/-- The substring Python tests with `"The query requires an index" in str(e)`
(main.py line 194). -/
def indexNeedle : String := "The query requires an index"

/-- The separator of `str(e).split("You can create it here: ")`
(main.py line 195). -/
def urlSep : String := "You can create it here: "

/-- Does the second list start with the first? -/
def startsWithChars : List Char → List Char → Bool
  | [], _ => true
  | _ :: _, [] => false
  | a :: as, b :: bs => a == b && startsWithChars as bs

/-- Does the needle occur as a contiguous sublist of the haystack? -/
def occursIn (needle : List Char) : List Char → Bool
  | [] => startsWithChars needle []
  | c :: rest => startsWithChars needle (c :: rest) || occursIn needle rest

/-- Python `needle in s`: substring containment. -/
def pyContains (s needle : String) : Bool := occursIn needle.data s.data

/-- The `except` handler of `query_payments` (main.py lines 192-199) as a
function of the fault's diagnostic text `str(e)`.  Python
`str(e).split(sep)[1]` succeeds exactly when `sep` occurs in `str(e)`
(the split then has at least two parts), so the subscript's success is
embedded as containment of `sep`; when `sep` does not occur the
subscript raises `IndexError` inside the `except` block, modelled as
`none` (no string is returned, the exception escapes). -/
def query_fault_response (msg : String) : Option String :=
  if pyContains msg indexNeedle then
    if pyContains msg urlSep then some adminIndexMsg
    else none
  else some queryErrorMsg

/-- `PaymentHandler.query_payments` end to end: `fault = some msg` means
the store raised with diagnostic `msg` while executing the query, and the
`except` handler runs; otherwise the records are formatted.  `none`
models an exception escaping `query_payments`. -/
def query_payments (now : Int) (store : List PaymentData) (fault : Option String)
    (params : Params) : Option String :=
  match fault with
  | some msg => query_fault_response msg
  | none => some (format_payment_response (query_payments_records now store params))

/-- `Bot.handle_command` (main.py lines 333-340): dispatch on the command
kind.  The result records the partition after the call, the native
queries issued, and the response (`none` = an exception escaped). -/
def handle_command (now : Int) (store : List PaymentData) (insertOk : Bool)
    (fault : Option String) (cmd : StructuredCommand) :
    List PaymentData × List QueryShape × Option String :=
  if cmd.command = "add_payment" then
    let r := add_payment now store insertOk cmd
    (r.1, [], some r.2)
  else if cmd.command = "query_payments" then
    (store, query_payments_plan now cmd.params,
     query_payments now store fault cmd.params)
  else (store, [], some notSupportedMsg)

/-- The partition listed in the store's descending-`timestamp` order
(ties in any order), i.e. each element's timestamp is at least every
later element's. -/
def SortedDescTs (l : List PaymentData) : Prop :=
  l.Pairwise (fun a b => b.timestamp ≤ a.timestamp)

/-- What a native compound query would return, per the spec's store
contract: both predicates — the inclusive `timestamp` range and
recipient equality — applied in one query ordered descending by
`timestamp`, i.e. one filter over the ordered partition. -/
def native_compound_query (store : List PaymentData) (r : String) (s e : Int) :
    List PaymentData :=
  store.filter (fun p => inRange s e p && p.recipient == r)

/-- Concatenation of a list of strings, in order. -/
def concatAll : List String → String
  | [] => ""
  | s :: rest => s ++ concatAll rest

/-- Shifting an instant back one full day shifts its civil day number by
exactly one. -/
theorem dateOf_sub_day (t : Int) : dateOf (t - usPerDay) = dateOf t - 1 := by
  have hne : usPerDay ≠ 0 := by decide
  have h : t - usPerDay = t + (-1) * usPerDay := by ring
  rw [dateOf, h, Int.add_mul_ediv_right _ _ hne]
  rfl

/-- C4: for `time_frame` in `week`/`month`/`year`, `get_date_range`
returns the rolling windows `[now-7d, now]`, `[now-30d, now]`,
`[now-365d, now]`, and every time frame outside the five recognized ones
falls back silently to the same 30-day window as `"month"`. -/
theorem get_date_range_rolling_windows (now : Int) (tf : String)
    (h : tf ∉ (["today", "yesterday", "week", "month", "year"] : List String)) :
    get_date_range now "week" = (now - 7 * usPerDay, now) ∧
    get_date_range now "month" = (now - 30 * usPerDay, now) ∧
    get_date_range now "year" = (now - 365 * usPerDay, now) ∧
    get_date_range now tf = get_date_range now "month" := by
  simp only [List.mem_cons, List.not_mem_nil, or_false, not_or] at h
  obtain ⟨h1, h2, h3, h4, h5⟩ := h
  refine ⟨?_, ?_, ?_, ?_⟩ <;> simp [get_date_range, h1, h2, h3, h4, h5]

/-- C4 witness: an unrecognized time frame gets the month window. -/
theorem get_date_range_rolling_windows_witness :
    get_date_range 0 "week" = (-(7 * usPerDay), 0) ∧
    get_date_range 0 "quincena" = get_date_range 0 "month" := by
  have h := get_date_range_rolling_windows 0 "quincena" (by decide)
  exact ⟨by rw [h.1]; decide, h.2.2.2⟩

/-- C5: for `"today"`, `get_date_range` returns the first and last
microsecond (00:00:00 to 23:59:59.999999) of the current civil date in
the fixed America/Bogota zone, and for `"yesterday"` the same bounds
shifted back exactly one civil day. -/
theorem get_date_range_civil_day (now : Int) :
    get_date_range now "today" = (startOfDay (dateOf now), endOfDay (dateOf now)) ∧
    get_date_range now "yesterday" =
      (startOfDay (dateOf now - 1), endOfDay (dateOf now - 1)) := by
  constructor
  · simp [get_date_range]
  · simp [get_date_range, dateOf_sub_day]

/-- C6 counterexample: for the token `"anteayer"` the code returns
`now - 2` days, not `now - 1` day as the claim's offset list states. -/
theorem parse_relative_date_anteayer_cex :
    parse_relative_date 0 "anteayer" = some (-(2 * usPerDay)) ∧
    parse_relative_date 0 "anteayer" ≠ some (-usPerDay) := by decide

/-- C6 amended: for any input whose lower-cased, stripped form is `hoy`,
`ayer`, `anteayer` or `mañana`, `parse_relative_date` returns `now`,
`now - 1d`, `now - 2d`, `now + 1d` respectively, and any input outside
these four resolves to nothing. -/
theorem parse_relative_date_tokens (now : Int) (s : String) :
    (pyStrip (pyLower s) = "hoy" → parse_relative_date now s = some now) ∧
    (pyStrip (pyLower s) = "ayer" → parse_relative_date now s = some (now - usPerDay)) ∧
    (pyStrip (pyLower s) = "anteayer" →
      parse_relative_date now s = some (now - 2 * usPerDay)) ∧
    (pyStrip (pyLower s) = "mañana" → parse_relative_date now s = some (now + usPerDay)) ∧
    (pyStrip (pyLower s) ∉ (["hoy", "ayer", "anteayer", "mañana"] : List String) →
      parse_relative_date now s = none) := by
  refine ⟨?_, ?_, ?_, ?_, ?_⟩ <;> intro h
  · simp [parse_relative_date, h]
  · simp [parse_relative_date, h]
  · simp [parse_relative_date, h]
  · simp [parse_relative_date, h]
  · simp only [List.mem_cons, List.not_mem_nil, or_false, not_or] at h
    simp [parse_relative_date, h.1, h.2.1, h.2.2.1, h.2.2.2]

/-- C6 amended, witness: concrete tokens, upper case and surrounding
whitespace included, and an unrecognized token. -/
theorem parse_relative_date_tokens_witness :
    parse_relative_date 5 " AYER " = some (5 - usPerDay) ∧
    parse_relative_date 5 "anteayer" = some (5 - 2 * usPerDay) ∧
    parse_relative_date 5 "MAÑANA" = some (5 + usPerDay) ∧
    parse_relative_date 5 "pasado" = none :=
  ⟨(parse_relative_date_tokens 5 " AYER ").2.1 (by decide),
   (parse_relative_date_tokens 5 "anteayer").2.2.1 (by decide),
   (parse_relative_date_tokens 5 "MAÑANA").2.2.2.1 (by decide),
   (parse_relative_date_tokens 5 "pasado").2.2.2.2 (by decide)⟩

/-- C1: with both a recipient and a time-frame filter, `query_payments`
issues exactly one native query — a `timestamp` range, no compound
equality-plus-range predicate — then filters the returned sequence in
memory by exact recipient equality; the result holds exactly the records
matching both predicates, in the range query's descending-by-timestamp
order, equal to what a native compound query would return. -/
theorem query_both_filters_refines_compound (now : Int) (store : List PaymentData)
    (r tf : String) (hs : SortedDescTs store) :
    query_payments_plan now ⟨some r, none, none, none, some tf⟩ =
      [QueryShape.tsRange (get_date_range now tf).1 (get_date_range now tf).2] ∧
    query_payments_records now store ⟨some r, none, none, none, some tf⟩ =
      (store.filter (inRange (get_date_range now tf).1 (get_date_range now tf).2)).filter
        (fun p => p.recipient == r) ∧
    query_payments_records now store ⟨some r, none, none, none, some tf⟩ =
      native_compound_query store r (get_date_range now tf).1 (get_date_range now tf).2 ∧
    SortedDescTs (query_payments_records now store ⟨some r, none, none, none, some tf⟩) ∧
    (∀ p, p ∈ query_payments_records now store ⟨some r, none, none, none, some tf⟩ ↔
      p ∈ store ∧ ((get_date_range now tf).1 ≤ p.timestamp ∧
        p.timestamp ≤ (get_date_range now tf).2) ∧ p.recipient = r) := by
  refine ⟨rfl, rfl, ?_, ?_, ?_⟩
  · show (store.filter _).filter _ = _
    rw [List.filter_filter]
    exact List.filter_congr (fun p _ => by rw [Bool.and_comm])
  · show List.Pairwise _ ((store.filter _).filter _)
    exact List.Pairwise.filter _ (List.Pairwise.filter _ hs)
  · intro p
    show p ∈ (store.filter _).filter _ ↔ _
    simp only [List.mem_filter, inRange, Bool.and_eq_true, decide_eq_true_eq,
      beq_iff_eq]
    tauto

/-- C1 witness: a concrete three-record partition, ordered descending by
timestamp; the range-then-in-memory-filter result coincides with the
native compound query. -/
theorem query_both_filters_refines_compound_witness :
    query_payments_plan (10 * usPerDay) ⟨some "Simon", none, none, none, some "yesterday"⟩ =
      [QueryShape.tsRange
        (get_date_range (10 * usPerDay) "yesterday").1
        (get_date_range (10 * usPerDay) "yesterday").2] ∧
    query_payments_records (10 * usPerDay)
      [⟨"Simon", 30000, "", "1970-01-10", 9 * usPerDay + 500⟩,
       ⟨"Juan", 20000, "", "1970-01-10", 9 * usPerDay + 400⟩,
       ⟨"Simon", 10000, "", "1970-01-05", 4 * usPerDay⟩]
      ⟨some "Simon", none, none, none, some "yesterday"⟩ =
      native_compound_query
        [⟨"Simon", 30000, "", "1970-01-10", 9 * usPerDay + 500⟩,
         ⟨"Juan", 20000, "", "1970-01-10", 9 * usPerDay + 400⟩,
         ⟨"Simon", 10000, "", "1970-01-05", 4 * usPerDay⟩]
        "Simon" (get_date_range (10 * usPerDay) "yesterday").1
        (get_date_range (10 * usPerDay) "yesterday").2 := by
  have h := query_both_filters_refines_compound (10 * usPerDay)
    [⟨"Simon", 30000, "", "1970-01-10", 9 * usPerDay + 500⟩,
     ⟨"Juan", 20000, "", "1970-01-10", 9 * usPerDay + 400⟩,
     ⟨"Simon", 10000, "", "1970-01-05", 4 * usPerDay⟩]
    "Simon" "yesterday" (by unfold SortedDescTs; decide)
  exact ⟨h.1, h.2.2.1⟩

/-- C2 counterexample: a fault whose diagnostic mentions the
missing-index marker but carries no "You can create it here: " part
makes the `except` handler itself raise (`IndexError` on
`split(...)[1]`), so `query_payments` returns no string at all. -/
theorem query_fault_missing_url_cex :
    query_fault_response "The query requires an index" = none ∧
    query_payments 0 [] (some "The query requires an index")
      ⟨none, none, none, none, none⟩ = none := by
  constructor
  · decide
  · decide

/-- C2 amended: a fault whose diagnostic lacks the missing-index marker
gets the generic retry message; one with the marker and the
index-creation URL separator gets the fixed administrator message; one
with the marker but without the separator escapes `query_payments`
unhandled (no string is returned). -/
theorem query_fault_response_cases (msg : String) (now : Int)
    (store : List PaymentData) (params : Params) :
    (pyContains msg indexNeedle = false →
      query_payments now store (some msg) params = some queryErrorMsg) ∧
    (pyContains msg indexNeedle = true → pyContains msg urlSep = true →
      query_payments now store (some msg) params = some adminIndexMsg) ∧
    (pyContains msg indexNeedle = true → pyContains msg urlSep = false →
      query_payments now store (some msg) params = none) := by
  refine ⟨?_, ?_, ?_⟩
  · intro h
    simp [query_payments, query_fault_response, h]
  · intro h1 h2
    simp [query_payments, query_fault_response, h1, h2]
  · intro h1 h2
    simp [query_payments, query_fault_response, h1, h2]

/-- C2 amended, witness: a generic fault and a complete missing-index
fault, each returning its fixed message. -/
theorem query_fault_response_cases_witness :
    query_payments 0 [] (some "Deadline exceeded")
      ⟨none, none, none, none, none⟩ = some queryErrorMsg ∧
    query_payments 0 []
      (some "The query requires an index. You can create it here: https://console")
      ⟨none, none, none, none, none⟩ = some adminIndexMsg :=
  ⟨(query_fault_response_cases "Deadline exceeded" 0 []
      ⟨none, none, none, none, none⟩).1 (by decide),
   (query_fault_response_cases
      "The query requires an index. You can create it here: https://console" 0 []
      ⟨none, none, none, none, none⟩).2.1 (by decide) (by decide)⟩

/-- C3 counterexample: an `add_payment` command with no recipient yields
the generic registration-failure message, which is not the
"could not understand" message the claim names (no record is written,
that part holds). -/
theorem add_payment_missing_recipient_cex :
    (add_payment 0 [] true ⟨"add_payment", ⟨none, some 5000, none, none, none⟩⟩).2 ≠
      couldNotUnderstandMsg ∧
    add_payment 0 [] true ⟨"add_payment", ⟨none, some 5000, none, none, none⟩⟩ =
      ([], addErrorMsg) := by
  constructor
  · decide
  · decide

/-- C3 amended: a command of kind `add_payment` missing `recipient` or
`amount` raises `KeyError` inside `add_payment`'s `try`, so the user
sees the generic registration-failure message — not the
"could not understand" translation-failure message — and no record is
written to the store. -/
theorem add_payment_missing_field (now : Int) (store : List PaymentData)
    (ok : Bool) (cmd : StructuredCommand)
    (h : cmd.params.recipient = none ∨ cmd.params.amount = none) :
    add_payment now store ok cmd = (store, addErrorMsg) ∧
    addErrorMsg ≠ couldNotUnderstandMsg := by
  have hp : prepare_payment_data now cmd.params = none := by
    unfold prepare_payment_data
    rcases h with h | h
    · rw [h]
    · rw [h]
      cases cmd.params.recipient <;> rfl
  refine ⟨?_, by decide⟩
  unfold add_payment
  rw [hp]

/-- C3 amended, witness: a concrete `add_payment` command with no
`amount`. -/
theorem add_payment_missing_field_witness :
    add_payment 7 [] true ⟨"add_payment", ⟨some "Juan", none, none, none, none⟩⟩ =
      ([], addErrorMsg) :=
  (add_payment_missing_field 7 [] true
    ⟨"add_payment", ⟨some "Juan", none, none, none, none⟩⟩ (Or.inr rfl)).1

/-- Shared evaluation fact: the token `"ayer"` resolves to one day before
`now`. -/
theorem parse_ayer (now : Int) : parse_relative_date now "ayer" = some (now - usPerDay) := by
  have h : pyStrip (pyLower "ayer") = "ayer" := by decide
  simp [parse_relative_date, h]

/-- C7: `prepare_payment_data` resolves the `date` field through the
relative-date resolver when present, non-empty and recognized, and falls
back to `now` otherwise; the record's civil-date string is derived from
the resolved instant.  In particular, for recipient `Juan`, amount
`50000`, note `almuerzo`, date `ayer` and a fixed `now`, the record's
civil date is the day before `now`'s and its amount is `50000`. -/
theorem prepare_payment_data_resolves_date (now : Int) (p : Params)
    (r : String) (a : Int) (hr : p.recipient = some r) (ha : p.amount = some a) :
    (∀ s d, p.date = some s → s ≠ "" → parse_relative_date now s = some d →
      prepare_payment_data now p =
        some ⟨r, a, p.metadata.getD "", formatCivilDate (dateOf d), d⟩) ∧
    ((p.date = none ∨ p.date = some "" ∨
        (∃ s, p.date = some s ∧ parse_relative_date now s = none)) →
      prepare_payment_data now p =
        some ⟨r, a, p.metadata.getD "", formatCivilDate (dateOf now), now⟩) ∧
    prepare_payment_data now ⟨some "Juan", some 50000, some "almuerzo", some "ayer", none⟩ =
      some ⟨"Juan", 50000, "almuerzo", formatCivilDate (dateOf now - 1), now - usPerDay⟩ := by
  refine ⟨?_, ?_, ?_⟩
  · intro s d hs hne hparse
    have hres : resolvedDate now p = d := by
      unfold resolvedDate
      rw [hs]
      simp [hne, hparse]
    simp [prepare_payment_data, hr, ha, hres]
  · intro hfall
    have hres : resolvedDate now p = now := by
      unfold resolvedDate
      rcases hfall with h | h | ⟨s, hs, hn⟩
      · rw [h]
      · rw [h]
        simp
      · rw [hs]
        rcases eq_or_ne s "" with he | he
        · simp [he]
        · simp [he, hn]
    simp [prepare_payment_data, hr, ha, hres]
  · have hres : resolvedDate now
        ⟨some "Juan", some 50000, some "almuerzo", some "ayer", none⟩ =
        now - usPerDay := by
      unfold resolvedDate
      simp [parse_ayer]
    simp [prepare_payment_data, hres, dateOf_sub_day]

/-- C7 witness: the spec's example at `now = 0`; yesterday's civil date
is 1969-12-31. -/
theorem prepare_payment_data_resolves_date_witness :
    prepare_payment_data 0 ⟨some "Juan", some 50000, some "almuerzo", some "ayer", none⟩ =
      some ⟨"Juan", 50000, "almuerzo", "1969-12-31", -usPerDay⟩ := by
  have h := (prepare_payment_data_resolves_date 0
    ⟨some "Juan", some 50000, some "almuerzo", some "ayer", none⟩
    "Juan" 50000 rfl rfl).2.2
  rw [h]
  decide

/-- Closed form of the response-accumulating loop of
`format_payment_response`. -/
theorem format_foldl (ps : List PaymentData) (s : String) (t : Int) :
    ps.foldl (fun st p => (st.1 ++ paymentLine p, st.2 + p.amount)) (s, t) =
      (s ++ concatAll (ps.map paymentLine), t + (ps.map PaymentData.amount).sum) := by
  induction ps generalizing s t with
  | nil => simp [concatAll]
  | cons p ps ih =>
    simp only [List.foldl_cons, List.map_cons, concatAll, List.sum_cons, ih]
    rw [String.append_assoc, Int.add_assoc]

/-- C8: an empty record sequence formats to exactly the fixed
"nothing found" string (no total line); a non-empty one formats to the
header, one line per record in the given order, and a trailing total
equal to the sum of all listed amounts, in grouped-thousands form. -/
theorem format_payment_response_spec (ps : List PaymentData) (h : ps ≠ []) :
    format_payment_response [] =
      "No se encontraron pagos para los criterios especificados." ∧
    format_payment_response ps =
      "📊 Historial de pagos:\n\n" ++ concatAll (ps.map paymentLine) ++
        "\n💰 Total: " ++ commafyInt ((ps.map PaymentData.amount).sum) ++ " COP" := by
  refine ⟨rfl, ?_⟩
  unfold format_payment_response
  rw [if_neg h, format_foldl, Int.zero_add]

/-- C8 witness: the spec's end-to-end example — 30000 then 20000 to
Juan, total 50,000 with thousands separators. -/
theorem format_payment_response_spec_witness :
    format_payment_response
      [⟨"Juan", 30000, "cena", "1970-01-02", usPerDay + 100⟩,
       ⟨"Juan", 20000, "", "1970-01-01", 50⟩] =
      "📊 Historial de pagos:\n\n💰 30,000 COP a Juan (cena) 📅 1970-01-02\n💰 20,000 COP a Juan 📅 1970-01-01\n\n💰 Total: 50,000 COP" := by
  rw [(format_payment_response_spec
    [⟨"Juan", 30000, "cena", "1970-01-02", usPerDay + 100⟩,
     ⟨"Juan", 20000, "", "1970-01-01", 50⟩] (by decide)).2]
  decide

/-- C9: every command whose kind is neither `add_payment` nor
`query_payments` — the schema's `add_debt` and `query_debts` included —
gets the fixed "command not supported" message, with no store insert and
no query issued, so debt records are never persisted or retrieved. -/
theorem handle_command_unsupported (now : Int) (store : List PaymentData)
    (ok : Bool) (fault : Option String) (cmd : StructuredCommand)
    (h1 : cmd.command ≠ "add_payment") (h2 : cmd.command ≠ "query_payments") :
    handle_command now store ok fault cmd = (store, [], some notSupportedMsg) := by
  unfold handle_command
  rw [if_neg h1, if_neg h2]

/-- C9 witness: concrete `add_debt` and `query_debts` commands. -/
theorem handle_command_unsupported_witness :
    handle_command 0 [] true none
      ⟨"add_debt", ⟨some "María", some 100000, some "mercado", none, none⟩⟩ =
      ([], [], some notSupportedMsg) ∧
    handle_command 0 [] true none
      ⟨"query_debts", ⟨none, none, none, none, none⟩⟩ =
      ([], [], some notSupportedMsg) :=
  ⟨handle_command_unsupported 0 [] true none
      ⟨"add_debt", ⟨some "María", some 100000, some "mercado", none, none⟩⟩
      (by decide) (by decide),
   handle_command_unsupported 0 [] true none
      ⟨"query_debts", ⟨none, none, none, none, none⟩⟩
      (by decide) (by decide)⟩

/-- `formatCivilDate` never returns the empty string (it always contains
the two dashes), so the confirmation's date line is always appended. -/
theorem formatCivilDate_ne_empty (d : Int) : formatCivilDate d ≠ "" := by
  unfold formatCivilDate
  intro h
  have h2 := congrArg String.length h
  simp only [String.length_append] at h2
  have h3 : ("-" : String).length = 1 := rfl
  rw [h3] at h2
  have h4 : ("" : String).length = 0 := rfl
  rw [h4] at h2
  omega

/-- C10: with `metadata` absent (recipient and amount present),
`prepare_payment_data` sets `metadata` to the empty string and every
other record field is exactly what it would be with a metadata value;
the record is still inserted and the confirmation string has no
"Concepto" line. -/
theorem add_payment_no_metadata (now : Int) (store : List PaymentData)
    (p : Params) (r : String) (a : Int)
    (hr : p.recipient = some r) (ha : p.amount = some a) (hm : p.metadata = none) :
    prepare_payment_data now p =
      some ⟨r, a, "", formatCivilDate (dateOf (resolvedDate now p)),
        resolvedDate now p⟩ ∧
    (∀ m, prepare_payment_data now
        ⟨p.recipient, p.amount, some m, p.date, p.time_frame⟩ =
      some ⟨r, a, m, formatCivilDate (dateOf (resolvedDate now p)),
        resolvedDate now p⟩) ∧
    add_payment now store true ⟨"add_payment", p⟩ =
      (store ++ [⟨r, a, "", formatCivilDate (dateOf (resolvedDate now p)),
          resolvedDate now p⟩],
        "✅ Pago registrado:\n💰 " ++ commafyInt a ++ " COP a " ++ r ++
          "\n📅 Fecha: " ++ formatCivilDate (dateOf (resolvedDate now p))) := by
  have h1 : prepare_payment_data now p =
      some ⟨r, a, "", formatCivilDate (dateOf (resolvedDate now p)),
        resolvedDate now p⟩ := by
    simp [prepare_payment_data, hr, ha, hm]
  refine ⟨h1, ?_, ?_⟩
  · intro m
    have he : resolvedDate now ⟨some r, some a, some m, p.date, p.time_frame⟩ =
        resolvedDate now p := rfl
    simp [prepare_payment_data, hr, ha, he]
  · unfold add_payment
    rw [h1]
    simp [formatCivilDate_ne_empty]

/-- C10 witness: a concrete command with no metadata; the stored record
carries an empty note and the confirmation has amount, name and date
lines only. -/
theorem add_payment_no_metadata_witness :
    add_payment 0 [] true
      ⟨"add_payment", ⟨some "Ana", some 1000000, none, none, none⟩⟩ =
      ([⟨"Ana", 1000000, "", "1970-01-01", 0⟩],
        "✅ Pago registrado:\n💰 1,000,000 COP a Ana\n📅 Fecha: 1970-01-01") := by
  rw [(add_payment_no_metadata 0 [] ⟨some "Ana", some 1000000, none, none, none⟩
    "Ana" 1000000 rfl rfl rfl).2.2]
  decide

end PaymentsBot
